import Mathlib

/-!
Shallow embedding of `netbox/secrets/views.py` (secret views of the NetBox
secrets app), together with spec-modelled stubs for the collaborators that the
views call but whose code is not part of the analysed sources
(`secrets/models.py`, `utilities/views.py`, Django, `base64`).

Conventions of the embedding:
* Python byte strings are `List Nat`.
* A Django request is reduced to its cookie map (the only part the secret
  views read besides `request.POST`/`request.user`, which are threaded
  separately as `FormData` and the `Env` lookups).
* Side effects (logging, `django.contrib.messages`, `form.add_error`,
  `secret.save()`, calls into `SessionKey.get_master_key`) are recorded as an
  event trace; database lookups are supplied by an `Env` record.
* A Python exception that the view does not catch is the `raised` outcome.
-/

/-- Python byte strings. -/
abbrev Bytes := List Nat

/-- The part of a Django request the secret views read: its cookies. -/
structure Request where
  cookies : String → Option String

/-- The `Secret` model instance as the views manipulate it: primary key,
form-populated attributes (represented by `name`), the transient `plaintext`
attribute, and the stored `ciphertext`/`nonce` fields. -/
structure SecretState where
  pk : Option Nat
  name : String
  plaintext : Option String
  ciphertext : Option Bytes
  nonce : Option Bytes
  deriving DecidableEq, Repr

/-- Modelled from the spec: a `UserKey` row. Only the fields the views read
are kept: `wrapped_master_key` is present exactly when an administrator has
activated the key (`secrets/models.py` is not among the analysed sources). -/
structure UserKeyRec where
  wrapped_master_key : Option Bytes
  deriving DecidableEq

/-- Modelled from the spec: `UserKey.is_active()` — true only once an
administrator has populated `wrapped_master_key`. -/
def UserKeyRec.is_active (uk : UserKeyRec) : Bool :=
  uk.wrapped_master_key.isSome

/-- Modelled from the spec: a `SessionKey` row — the master key encrypted
under a randomly generated session secret. -/
structure SessionKeyRec where
  wrapped_master_key : Bytes
  deriving DecidableEq

/-- What `SessionKey.get_master_key` can do when the view calls it: return a
master key, return `None`, or raise an exception (carried as a string name).
The view code under analysis treats it as opaque. -/
abbrev GmkResult := Except String (Option Bytes)

/-- The collaborators of the views: transport decoding, database lookups for
the requesting user, the opaque `SessionKey.get_master_key`, the cipher
behind `Secret.encrypt`, primary-key allocation by `save()`, and the HTML
helpers used when building messages. -/
structure Env where
  b64decode : String → Bytes
  userKey : Option UserKeyRec
  sessionKey : Option SessionKeyRec
  getMasterKey : SessionKeyRec → Option Bytes → GmkResult
  encCipher : Option String → Bytes → Bytes
  encNonce : Option String → Bytes → Bytes
  nextPk : Nat
  urlOf : Option Nat → String
  escapeHtml : String → String
  returnUrl : String

/-- The observable actions a view run performs, in order. -/
inductive Event where
  | logDebug (msg : String)
  | logInfo (msg : String)
  | messageWarning (msg : String)
  | messageError (msg : String)
  | messageSuccess (msg : String)
  | addFormError (msg : String)
  | callGetMasterKey (arg : Option Bytes)
  | callEncrypt (masterKey : Bytes)
  | dbSaveSecret (s : SecretState)
  deriving DecidableEq, Repr

/-- Outcome of `SecretEditView.dispatch`/`post`. -/
inductive EditOutcome where
  | redirectUrl (url : String)
  | renderEdit
  | raised (e : String)
  deriving DecidableEq, Repr

/-- Outcome of `SecretBulkImportView.post`. -/
inductive BulkOutcome where
  | superPosted
  | renderImport
  | raised (e : String)
  deriving DecidableEq, Repr

/-- The validated form data of a `SecretForm` (or of one CSV row of a
`SecretCSVForm`): whether `form.is_valid()` holds, the cleaned `plaintext`
field (a Python string, falsy iff empty), and the model fields, represented
by `name`. -/
structure FormData where
  valid : Bool
  plaintext : String
  name : String
  deriving DecidableEq, Repr

/--
```python
def get_session_key(request):
    session_key = request.COOKIES.get('session_key', None)
    if session_key is not None:
        return base64.b64decode(session_key)
    return session_key
```
-/
def get_session_key (env : Env) (request : Request) : Option Bytes :=
  match request.cookies "session_key" with
  | some s => some (env.b64decode s)
  | none => none

/-- Modelled from the spec: `Secret.encrypt(master_key)` from
`secrets/models.py` (not among the analysed sources) — encrypts the transient
plaintext under the master key with a fresh nonce, populating `ciphertext`
and `nonce` and clearing the transient plaintext (the plaintext exists only
transiently during encrypt; it is never persisted). -/
def Secret.encrypt (env : Env) (s : SecretState) (masterKey : Bytes) : SecretState :=
  { s with
    ciphertext := some (env.encCipher s.plaintext masterKey)
    nonce := some (env.encNonce s.plaintext masterKey)
    plaintext := none }

/-- `form.save(commit=False)`: populate the instance's model fields from the
cleaned data without touching the database. `plaintext` is not a model field;
the view assigns it separately. Returns `form.instance`, i.e. the same object
the view holds as `secret` (they alias). -/
def formSaveNoCommit (fd : FormData) (s : SecretState) : SecretState :=
  { s with name := fd.name }

/-- `secret.save()`: persist the instance; a new row gets the next primary
key, an existing row keeps its own. The saved state is recorded as a
`dbSaveSecret` event by the callers. -/
def modelSave (env : Env) (s : SecretState) : SecretState :=
  { s with pk := some (s.pk.getD env.nextPk) }

/-- The error message added when no session key accompanies the request. -/
def noKeyProvidedMsg : String :=
  "No session key was provided with the request. Unable to encrypt secret data."

/-- The error message added when the user has no `SessionKey` row. -/
def noSessionKeyMsg : String := "No session key found for this user."

/-- The bulk-import error message shown when the master key is still `None`
after the lookup. -/
def invalidPrivateKeyMsg : String :=
  "Invalid private key! Unable to encrypt secret data."

/--
`SecretEditView.post` (`views.py` lines 103-150). `fd` is the bound form,
`secret0` the object returned by `self.get_object(kwargs)` (`pk = none` for a
creation). The try block catches only `SessionKey.DoesNotExist`; anything
`get_master_key` raises escapes the view.
-/
def editPost (env : Env) (request : Request) (fd : FormData) (secret0 : SecretState) :
    EditOutcome × List Event :=
  let session_key := get_session_key env request
  if fd.valid then
    let ev0 := [Event.logDebug "Form validation was successful"]
    -- We must have a session key in order to create a secret or update the
    -- plaintext of an existing secret
    if (fd.plaintext ≠ "" ∨ secret0.pk = none) ∧ session_key = none then
      (EditOutcome.renderEdit,
        ev0 ++ [Event.logDebug "Unable to proceed: No session key was provided with the request",
                Event.addFormError noKeyProvidedMsg])
    else
      match env.sessionKey with
      | none =>
          (EditOutcome.renderEdit,
            ev0 ++ [Event.logDebug "Unable to proceed: User has no session key assigned",
                    Event.addFormError noSessionKeyMsg])
      | some sk =>
          let ev1 := ev0 ++ [Event.callGetMasterKey session_key]
          match env.getMasterKey sk session_key with
          | Except.error e => (EditOutcome.raised e, ev1)
          | Except.ok none => (EditOutcome.renderEdit, ev1)
          | Except.ok (some master_key) =>
              let secret1 := formSaveNoCommit fd secret0
              let secret2 :=
                if fd.plaintext ≠ "" then { secret1 with plaintext := some fd.plaintext }
                else secret1
              let secret3 := Secret.encrypt env secret2 master_key
              let secret4 := modelSave env secret3
              -- form.instance aliases secret, so its pk is populated here
              let msg := (if secret4.pk = none then "Created" else "Modified") ++ " secret"
              (EditOutcome.redirectUrl env.returnUrl,
                ev1 ++ [Event.logDebug "Successfully resolved master key for encryption",
                        Event.callEncrypt master_key,
                        Event.dbSaveSecret secret4,
                        Event.logInfo (msg ++ " " ++ secret4.name ++ " (PK: " ++
                          toString (secret4.pk.getD 0) ++ ")"),
                        Event.messageSuccess (msg ++ " <a href=\"" ++ env.urlOf secret4.pk ++
                          "\">" ++ env.escapeHtml secret4.name ++ "</a>")])
  else
    (EditOutcome.renderEdit, [Event.logDebug "Form validation failed"])

/--
`SecretEditView.dispatch` (`views.py` lines 89-101): reject users without an
active `UserKey` before any form processing; otherwise `super().dispatch`
routes the POST to `editPost`.
-/
def editDispatch (env : Env) (request : Request) (fd : FormData) (secret0 : SecretState) :
    EditOutcome × List Event :=
  match env.userKey with
  | none =>
      (EditOutcome.redirectUrl "user:userkey",
        [Event.messageWarning "This operation requires an active user key, but you don't have one."])
  | some uk =>
      if uk.is_active then editPost env request fd secret0
      else
        (EditOutcome.redirectUrl "user:userkey",
          [Event.messageWarning "This operation is not available. Your user key has not been activated."])

/--
`SecretBulkImportView._save_obj` (`views.py` lines 166-173): encrypt each
object before saving it to the database.
-/
def bulkSaveObj (env : Env) (masterKey : Bytes) (fd : FormData) : SecretState × List Event :=
  let obj : SecretState :=
    { pk := none, name := fd.name, plaintext := some fd.plaintext,
      ciphertext := none, nonce := none }
  let obj2 := Secret.encrypt env obj masterKey
  let obj3 := modelSave env obj2
  (obj3, [Event.callEncrypt masterKey, Event.dbSaveSecret obj3])

/-- Modelled from the spec: `BulkImportView.post` of `utilities/views.py`
(not among the analysed sources) — thin orchestration that validates each
imported row and calls `self._save_obj` on each. -/
def bulkSuperPost (env : Env) (masterKey : Bytes) (rows : List FormData) : List Event :=
  (rows.map (fun fd => (bulkSaveObj env masterKey fd).2)).flatten

/--
`SecretBulkImportView.post` (`views.py` lines 175-201). The class attribute
`master_key` starts as `None`; the try block catches only
`SessionKey.DoesNotExist`, and when it fires the fall-through
`if self.master_key is not None` test still runs, emitting the
"Invalid private key!" message as well.
-/
def bulkPost (env : Env) (request : Request) (rows : List FormData) :
    BulkOutcome × List Event :=
  match request.cookies "session_key" with
  | none =>
      (BulkOutcome.renderImport, [Event.messageError noKeyProvidedMsg])
  | some s =>
      if s = "" then
        -- an empty cookie value is falsy in Python
        (BulkOutcome.renderImport, [Event.messageError noKeyProvidedMsg])
      else
        match env.sessionKey with
        | none =>
            (BulkOutcome.renderImport,
              [Event.messageError noSessionKeyMsg, Event.messageError invalidPrivateKeyMsg])
        | some sk =>
            let arg := some (env.b64decode s)
            match env.getMasterKey sk arg with
            | Except.error e => (BulkOutcome.raised e, [Event.callGetMasterKey arg])
            | Except.ok none =>
                (BulkOutcome.renderImport,
                  [Event.callGetMasterKey arg, Event.messageError invalidPrivateKeyMsg])
            | Except.ok (some mk) =>
                (BulkOutcome.superPosted,
                  Event.callGetMasterKey arg :: bulkSuperPost env mk rows)

/-- The secrets recorded as saved in a trace. -/
def savedSecrets (t : List Event) : List SecretState :=
  t.filterMap fun e =>
    match e with
    | Event.dbSaveSecret s => some s
    | _ => none

/-- The arguments of the `get_master_key` calls in a trace. -/
def gmkCalls (t : List Event) : List (Option Bytes) :=
  t.filterMap fun e =>
    match e with
    | Event.callGetMasterKey k => some k
    | _ => none

/-- The `form.add_error` messages in a trace (rendered back to the client). -/
def formErrors (t : List Event) : List String :=
  t.filterMap fun e =>
    match e with
    | Event.addFormError m => some m
    | _ => none

/-- The `messages.error` texts in a trace (rendered back to the client). -/
def errorMsgs (t : List Event) : List String :=
  t.filterMap fun e =>
    match e with
    | Event.messageError m => some m
    | _ => none

/-- The `messages.success` texts in a trace. -/
def successMsgs (t : List Event) : List String :=
  t.filterMap fun e =>
    match e with
    | Event.messageSuccess m => some m
    | _ => none

/-- Everything a log call or a user-facing message channel carries, tagged by
channel, in order: the observation an operator reading the logs plus a client
reading the responses can make. -/
def logsAndMessages (t : List Event) : List (String × String) :=
  t.filterMap fun e =>
    match e with
    | Event.logDebug m => some ("log.debug", m)
    | Event.logInfo m => some ("log.info", m)
    | Event.messageWarning m => some ("messages.warning", m)
    | Event.messageError m => some ("messages.error", m)
    | Event.messageSuccess m => some ("messages.success", m)
    | Event.addFormError m => some ("form.error", m)
    | _ => none

/-! ### Concrete fixtures used by witnesses and counterexamples -/

/-- A concrete environment: active user key, a SessionKey row, a
`get_master_key` that succeeds. -/
def envBase : Env :=
  { b64decode := fun s => s.data.map Char.toNat
    userKey := some ⟨some [1]⟩
    sessionKey := some ⟨[2]⟩
    getMasterKey := fun _ _ => Except.ok (some [3])
    encCipher := fun _ _ => [4]
    encNonce := fun _ _ => [5]
    nextPk := 7
    urlOf := fun pk => "/secrets/" ++ toString (pk.getD 0) ++ "/"
    escapeHtml := fun s => s
    returnUrl := "/secrets/" }

/-- Like `envBase` but the user has no `SessionKey` row. -/
def envNoSession : Env := { envBase with sessionKey := none }

/-- Like `envBase` but `get_master_key` returns `None`. -/
def envGmkNone : Env := { envBase with getMasterKey := fun _ _ => Except.ok none }

/-- Like `envBase` but `get_master_key` raises. -/
def envGmkRaise : Env := { envBase with getMasterKey := fun _ _ => Except.error "InvalidKey" }

/-- Like `envBase` but the user has no `UserKey` row. -/
def envNoUserKey : Env := { envBase with userKey := none }

/-- Like `envBase` but the user's `UserKey` was never activated. -/
def envInactiveKey : Env := { envBase with userKey := some ⟨none⟩ }

/-- A request carrying no cookies at all. -/
def reqNoCookie : Request := ⟨fun _ => none⟩

/-- A request carrying a base64 session-key cookie. -/
def reqCookie : Request :=
  ⟨fun k => if k = "session_key" then some "c2Vzc2lvbg==" else none⟩

/-- A valid form creating or overwriting a plaintext. -/
def fdCreate : FormData := ⟨true, "hunter2", "db-password"⟩

/-- A valid form for an existing secret with the plaintext field left empty. -/
def fdEmptyPlain : FormData := ⟨true, "", "db-password"⟩

/-- A brand-new secret instance (no primary key yet). -/
def secretNew : SecretState := ⟨none, "", none, none, none⟩

/-- An already-stored secret instance. -/
def secretOld : SecretState := ⟨some 5, "db-password", none, some [9], some [10]⟩

/-! ### Claims -/

/-- **C1.** For every secret write request (create or plaintext update via
`SecretEditView.post`, or any bulk import via `SecretBulkImportView.post`) in
which no session-key cookie accompanies the request, the operation fails with
an error before any call to the storage layer: no Secret record is created or
updated, and no record is ever stored with plaintext standing in for
ciphertext. -/
theorem write_without_cookie_fails_before_storage
    (env : Env) (request : Request) (fd : FormData) (secret0 : SecretState)
    (rows : List FormData)
    (hcookie : request.cookies "session_key" = none) :
    ((fd.plaintext ≠ "" ∨ secret0.pk = none) →
      savedSecrets (editPost env request fd secret0).2 = [] ∧
      (fd.valid = true →
        formErrors (editPost env request fd secret0).2 = [noKeyProvidedMsg] ∧
        (editPost env request fd secret0).1 = EditOutcome.renderEdit)) ∧
    savedSecrets (bulkPost env request rows).2 = [] ∧
    errorMsgs (bulkPost env request rows).2 = [noKeyProvidedMsg] ∧
    (bulkPost env request rows).1 = BulkOutcome.renderImport := by
  refine ⟨fun hscope => ?_, ?_⟩
  · cases hv : fd.valid
    · simp [editPost, get_session_key, hcookie, hv, savedSecrets]
    · simp [editPost, get_session_key, hcookie, hv, hscope, savedSecrets, formErrors]
  · simp [bulkPost, hcookie, savedSecrets, errorMsgs]

/-- Witness for C1 at a concrete input: a creation attempt with no cookie. -/
theorem write_without_cookie_fails_before_storage_witness :
    savedSecrets (editPost envBase reqNoCookie fdCreate secretNew).2 = [] ∧
    formErrors (editPost envBase reqNoCookie fdCreate secretNew).2 = [noKeyProvidedMsg] ∧
    savedSecrets (bulkPost envBase reqNoCookie [fdCreate]).2 = [] ∧
    errorMsgs (bulkPost envBase reqNoCookie [fdCreate]).2 = [noKeyProvidedMsg] := by
  have h := write_without_cookie_fails_before_storage envBase reqNoCookie fdCreate secretNew
    [fdCreate] rfl
  exact ⟨(h.1 (Or.inr rfl)).1, ((h.1 (Or.inr rfl)).2 rfl).1, h.2.1, h.2.2.1⟩

/-- **C2 counterexample.** The claim says two secret-write requests failing at
different steps receive indistinguishable responses. At these explicit
concrete inputs, a request failing at the no-token step and a request failing
at the no-SessionKey-row step receive different form-error messages, so the
failing step is visible to the client. -/
theorem failure_step_distinguishable_counterexample :
    formErrors (editPost envBase reqNoCookie fdCreate secretNew).2 = [noKeyProvidedMsg] ∧
    formErrors (editPost envNoSession reqCookie fdCreate secretNew).2 = [noSessionKeyMsg] ∧
    formErrors (editPost envBase reqNoCookie fdCreate secretNew).2 ≠
      formErrors (editPost envNoSession reqCookie fdCreate secretNew).2 := by
  refine ⟨by decide, by decide, by decide⟩

/-- **C2 (amended).** Every failed secret write surfaces an error to the
client, but the message identifies the failing step rather than a single
generic condition: the no-token step, the no-SessionKey-row step and the
invalid-key step of the bulk import each emit their own distinct message, so
requests failing at different steps receive distinguishable responses. -/
theorem failure_messages_identify_step
    (env : Env) (request : Request) (fd : FormData) (secret0 : SecretState)
    (rows : List FormData) (s : String)
    (hvalid : fd.valid = true) :
    (request.cookies "session_key" = none → (fd.plaintext ≠ "" ∨ secret0.pk = none) →
      formErrors (editPost env request fd secret0).2 = [noKeyProvidedMsg]) ∧
    (request.cookies "session_key" = some s → env.sessionKey = none →
      formErrors (editPost env request fd secret0).2 = [noSessionKeyMsg]) ∧
    (request.cookies "session_key" = some s → s ≠ "" → env.sessionKey = none →
      errorMsgs (bulkPost env request rows).2 = [noSessionKeyMsg, invalidPrivateKeyMsg]) ∧
    (∀ sk, request.cookies "session_key" = some s → s ≠ "" → env.sessionKey = some sk →
      env.getMasterKey sk (some (env.b64decode s)) = Except.ok none →
      errorMsgs (bulkPost env request rows).2 = [invalidPrivateKeyMsg]) ∧
    noKeyProvidedMsg ≠ noSessionKeyMsg ∧ noSessionKeyMsg ≠ invalidPrivateKeyMsg ∧
    noKeyProvidedMsg ≠ invalidPrivateKeyMsg := by
  refine ⟨?_, ?_, ?_, ?_, by decide, by decide, by decide⟩
  · intro hcookie hscope
    simp [editPost, get_session_key, hcookie, hvalid, hscope, formErrors]
  · intro hcookie hsk
    simp [editPost, get_session_key, hcookie, hvalid, hsk, formErrors]
  · intro hcookie hne hsk
    simp [bulkPost, hcookie, hne, hsk, errorMsgs]
  · intro sk hcookie hne hsk hgmk
    simp [bulkPost, hcookie, hne, hsk, hgmk, errorMsgs]

/-- Witness for the amended C2, applying it at three concrete inputs that
fail at the three different steps. -/
theorem failure_messages_identify_step_witness :
    formErrors (editPost envBase reqNoCookie fdCreate secretNew).2 = [noKeyProvidedMsg] ∧
    formErrors (editPost envNoSession reqCookie fdCreate secretNew).2 = [noSessionKeyMsg] ∧
    errorMsgs (bulkPost envGmkNone reqCookie []).2 = [invalidPrivateKeyMsg] := by
  refine ⟨?_, ?_, ?_⟩
  · exact (failure_messages_identify_step envBase reqNoCookie fdCreate secretNew []
      "c2Vzc2lvbg==" rfl).1 rfl (Or.inr rfl)
  · exact (failure_messages_identify_step envNoSession reqCookie fdCreate secretNew []
      "c2Vzc2lvbg==" rfl).2.1 rfl rfl
  · exact (failure_messages_identify_step envGmkNone reqCookie fdCreate secretNew []
      "c2Vzc2lvbg==" rfl).2.2.2.1 ⟨[2]⟩ rfl (by decide) rfl rfl

/-- Helper: every secret a run of `editPost` records as saved went through
`Secret.encrypt` followed by `save()`. -/
lemma editPost_saved_encrypted (env : Env) (request : Request) (fd : FormData)
    (secret0 : SecretState) :
    ∀ s ∈ savedSecrets (editPost env request fd secret0).2,
      s.ciphertext.isSome ∧ s.nonce.isSome ∧ s.plaintext = none := by
  intro s hs
  simp only [editPost] at hs
  split at hs
  · split at hs
    · simp [savedSecrets] at hs
    · split at hs
      · simp [savedSecrets] at hs
      · split at hs
        · simp [savedSecrets] at hs
        · simp [savedSecrets] at hs
        · simp [savedSecrets] at hs
          subst hs
          simp [modelSave, Secret.encrypt]
  · simp [savedSecrets] at hs

/-- Helper: every secret a run of `bulkPost` records as saved went through
`Secret.encrypt` followed by `save()` inside `_save_obj`. -/
lemma bulkPost_saved_encrypted (env : Env) (request : Request) (rows : List FormData) :
    ∀ s ∈ savedSecrets (bulkPost env request rows).2,
      s.ciphertext.isSome ∧ s.nonce.isSome ∧ s.plaintext = none := by
  intro s hs
  simp only [bulkPost] at hs
  split at hs
  · simp [savedSecrets] at hs
  · split at hs
    · simp [savedSecrets] at hs
    · split at hs
      · simp [savedSecrets] at hs
      · split at hs
        · simp [savedSecrets] at hs
        · simp [savedSecrets] at hs
        · simp [savedSecrets, bulkSuperPost, bulkSaveObj, List.mem_flatten] at hs
          rcases hs with ⟨fd2, hfd2, hsl⟩
          subst hsl
          simp [modelSave, Secret.encrypt]

/-- **C3.** Every Secret persisted through the secret views
(`SecretEditView.post` and `SecretBulkImportView._save_obj`) has
`encrypt(master_key)` invoked on it before `save()` is called, so a stored
Secret has ciphertext and nonce both present and never a known plaintext. -/
theorem stored_secret_always_encrypted
    (env : Env) (request : Request) (fd : FormData) (secret0 : SecretState)
    (masterKey : Bytes) (rows : List FormData) :
    (∀ s ∈ savedSecrets (editPost env request fd secret0).2,
       s.ciphertext.isSome ∧ s.nonce.isSome ∧ s.plaintext = none) ∧
    ((bulkSaveObj env masterKey fd).2 =
       [Event.callEncrypt masterKey, Event.dbSaveSecret (bulkSaveObj env masterKey fd).1] ∧
     (bulkSaveObj env masterKey fd).1.ciphertext.isSome ∧
     (bulkSaveObj env masterKey fd).1.nonce.isSome ∧
     (bulkSaveObj env masterKey fd).1.plaintext = none) ∧
    (∀ s ∈ savedSecrets (bulkPost env request rows).2,
       s.ciphertext.isSome ∧ s.nonce.isSome ∧ s.plaintext = none) := by
  refine ⟨editPost_saved_encrypted env request fd secret0, ⟨rfl, ?_, ?_, ?_⟩,
    bulkPost_saved_encrypted env request rows⟩ <;>
    simp [bulkSaveObj, modelSave, Secret.encrypt]

/-- Witness for C3 at a concrete input: a successful create run saves exactly
one secret, with ciphertext and nonce present and no plaintext. -/
theorem stored_secret_always_encrypted_witness :
    savedSecrets (editPost envBase reqCookie fdCreate secretNew).2 =
      [⟨some 7, "db-password", none, some [4], some [5]⟩] ∧
    (⟨some 7, "db-password", none, some [4], some [5]⟩ : SecretState).ciphertext.isSome ∧
    ((⟨some 7, "db-password", none, some [4], some [5]⟩ : SecretState).plaintext = none) := by
  have h := (stored_secret_always_encrypted envBase reqCookie fdCreate secretNew [3] []).1
    ⟨some 7, "db-password", none, some [4], some [5]⟩
  refine ⟨by decide, ?_, ?_⟩
  · exact (h (by decide)).1
  · exact (h (by decide)).2.2

/-- **C4.** For every `SecretEditView` request by a user whose UserKey does
not exist or whose UserKey is not active, the request is redirected with a
warning at dispatch time, before any form processing, and master-key
recovery is never reached. -/
theorem inactive_userkey_redirected_at_dispatch
    (env : Env) (request : Request) (fd : FormData) (secret0 : SecretState) :
    (env.userKey = none →
      editDispatch env request fd secret0 =
        (EditOutcome.redirectUrl "user:userkey",
         [Event.messageWarning
            "This operation requires an active user key, but you don't have one."])) ∧
    (∀ uk, env.userKey = some uk → uk.is_active = false →
      editDispatch env request fd secret0 =
        (EditOutcome.redirectUrl "user:userkey",
         [Event.messageWarning
            "This operation is not available. Your user key has not been activated."])) ∧
    ((env.userKey = none ∨ ∃ uk, env.userKey = some uk ∧ uk.is_active = false) →
      gmkCalls (editDispatch env request fd secret0).2 = [] ∧
      savedSecrets (editDispatch env request fd secret0).2 = []) := by
  refine ⟨fun h => ?_, fun uk h hact => ?_, fun h => ?_⟩
  · simp [editDispatch, h]
  · simp [editDispatch, h, hact]
  · rcases h with h | ⟨uk, h, hact⟩
    · simp [editDispatch, h, gmkCalls, savedSecrets]
    · simp [editDispatch, h, hact, gmkCalls, savedSecrets]

/-- Witness for C4 at concrete inputs: a user with no UserKey row and a user
with an unactivated UserKey are both redirected without any master-key
recovery. -/
theorem inactive_userkey_redirected_at_dispatch_witness :
    editDispatch envNoUserKey reqCookie fdCreate secretNew =
      (EditOutcome.redirectUrl "user:userkey",
       [Event.messageWarning
          "This operation requires an active user key, but you don't have one."]) ∧
    editDispatch envInactiveKey reqCookie fdCreate secretNew =
      (EditOutcome.redirectUrl "user:userkey",
       [Event.messageWarning
          "This operation is not available. Your user key has not been activated."]) ∧
    gmkCalls (editDispatch envNoUserKey reqCookie fdCreate secretNew).2 = [] := by
  refine ⟨?_, ?_, ?_⟩
  · exact (inactive_userkey_redirected_at_dispatch envNoUserKey reqCookie fdCreate
      secretNew).1 rfl
  · exact (inactive_userkey_redirected_at_dispatch envInactiveKey reqCookie fdCreate
      secretNew).2.1 ⟨none⟩ rfl rfl
  · exact ((inactive_userkey_redirected_at_dispatch envNoUserKey reqCookie fdCreate
      secretNew).2.2 (Or.inl rfl)).1

/-- **C5.** For every secret write where a session-key token is presented but
no SessionKey record exists for the requesting user, the operation fails with
a no-session-key error and the stored state is unchanged (no Secret is
saved). -/
theorem missing_sessionkey_row_fails_without_save
    (env : Env) (request : Request) (fd : FormData) (secret0 : SecretState)
    (rows : List FormData) (s : String)
    (hcookie : request.cookies "session_key" = some s)
    (hnosk : env.sessionKey = none) :
    (fd.valid = true →
      formErrors (editPost env request fd secret0).2 = [noSessionKeyMsg] ∧
      (editPost env request fd secret0).1 = EditOutcome.renderEdit) ∧
    savedSecrets (editPost env request fd secret0).2 = [] ∧
    (s ≠ "" →
      noSessionKeyMsg ∈ errorMsgs (bulkPost env request rows).2 ∧
      (bulkPost env request rows).1 = BulkOutcome.renderImport) ∧
    savedSecrets (bulkPost env request rows).2 = [] := by
  refine ⟨fun hv => ?_, ?_, fun hne => ?_, ?_⟩
  · simp [editPost, get_session_key, hcookie, hv, hnosk, formErrors]
  · cases hv : fd.valid
    · simp [editPost, get_session_key, hcookie, hv, savedSecrets]
    · simp [editPost, get_session_key, hcookie, hv, hnosk, savedSecrets]
  · simp [bulkPost, hcookie, hne, hnosk, errorMsgs]
  · by_cases hne : s = ""
    · simp [bulkPost, hcookie, hne, savedSecrets]
    · simp [bulkPost, hcookie, hne, hnosk, savedSecrets]

/-- Witness for C5 at a concrete input: a cookie-bearing request from a user
with no SessionKey row. -/
theorem missing_sessionkey_row_fails_without_save_witness :
    formErrors (editPost envNoSession reqCookie fdCreate secretNew).2 = [noSessionKeyMsg] ∧
    savedSecrets (editPost envNoSession reqCookie fdCreate secretNew).2 = [] ∧
    noSessionKeyMsg ∈ errorMsgs (bulkPost envNoSession reqCookie [fdCreate]).2 ∧
    savedSecrets (bulkPost envNoSession reqCookie [fdCreate]).2 = [] := by
  have h := missing_sessionkey_row_fails_without_save envNoSession reqCookie fdCreate
    secretNew [fdCreate] "c2Vzc2lvbg==" rfl rfl
  exact ⟨(h.1 rfl).1, h.2.1, (h.2.2.1 (by decide)).1, h.2.2.2⟩

/-- **C6.** `get_session_key(request)` returns `None` iff the request has no
session-key cookie, otherwise the base64 decoding of the cookie value; the
core (`SessionKey.get_master_key`) always receives already-decoded bytes,
never the base64 transport encoding. -/
theorem session_key_decoded_before_core
    (env : Env) (request : Request) (fd : FormData) (secret0 : SecretState)
    (rows : List FormData) :
    (get_session_key env request = none ↔ request.cookies "session_key" = none) ∧
    (∀ v, request.cookies "session_key" = some v →
      get_session_key env request = some (env.b64decode v)) ∧
    (∀ k ∈ gmkCalls (editPost env request fd secret0).2,
      k = get_session_key env request) ∧
    (∀ k ∈ gmkCalls (bulkPost env request rows).2,
      ∃ v, request.cookies "session_key" = some v ∧ k = some (env.b64decode v)) := by
  refine ⟨?_, fun v hv => ?_, fun k hk => ?_, fun k hk => ?_⟩
  · unfold get_session_key
    cases h : request.cookies "session_key" <;> simp
  · simp [get_session_key, hv]
  · simp only [editPost] at hk
    split at hk
    · split at hk
      · simp [gmkCalls] at hk
      · split at hk
        · simp [gmkCalls] at hk
        · split at hk <;> simp [gmkCalls] at hk <;> exact hk
    · simp [gmkCalls] at hk
  · simp only [bulkPost] at hk
    split at hk
    · simp [gmkCalls] at hk
    · rename_i v hv
      split at hk
      · simp [gmkCalls] at hk
      · split at hk
        · simp [gmkCalls] at hk
        · split at hk
          · simp [gmkCalls] at hk
            exact ⟨v, hv, hk⟩
          · simp [gmkCalls] at hk
            exact ⟨v, hv, hk⟩
          · simp [gmkCalls, bulkSuperPost, bulkSaveObj] at hk
            rcases hk with hk | ⟨l, ⟨hex, hl⟩, hkl⟩
            · exact ⟨v, hv, hk⟩
            · subst hl
              simp at hkl

/-- Witness for C6 at a concrete input. -/
theorem session_key_decoded_before_core_witness :
    (get_session_key envBase reqCookie = none ↔ reqCookie.cookies "session_key" = none) ∧
    get_session_key envBase reqCookie = some (envBase.b64decode "c2Vzc2lvbg==") := by
  have h := session_key_decoded_before_core envBase reqCookie fdCreate secretNew []
  exact ⟨h.1, h.2.1 "c2Vzc2lvbg==" rfl⟩

/-- **C8.** A valid `SecretEditView.post` on an existing secret with an empty
plaintext field and no session-key cookie does not take the no-session-key
guard: the code proceeds to the SessionKey lookup and calls
`sk.get_master_key(None)` with a `None` session key, rather than failing with
the no-key-provided error. -/
theorem empty_plaintext_update_skips_guard
    (env : Env) (request : Request) (fd : FormData) (secret0 : SecretState)
    (n : Nat) (sk : SessionKeyRec)
    (hvalid : fd.valid = true) (hplain : fd.plaintext = "")
    (hpk : secret0.pk = some n)
    (hcookie : request.cookies "session_key" = none)
    (hsk : env.sessionKey = some sk) :
    gmkCalls (editPost env request fd secret0).2 = [none] ∧
    formErrors (editPost env request fd secret0).2 = [] := by
  cases hg : env.getMasterKey sk none with
  | error e =>
      simp [editPost, get_session_key, hcookie, hvalid, hplain, hpk, hsk, hg,
        gmkCalls, formErrors]
  | ok mk =>
      cases mk <;>
        simp [editPost, get_session_key, hcookie, hvalid, hplain, hpk, hsk, hg,
          gmkCalls, formErrors]

/-- Witness for C8 at a concrete input: an existing secret, empty plaintext,
no cookie, a SessionKey row present. -/
theorem empty_plaintext_update_skips_guard_witness :
    gmkCalls (editPost envBase reqNoCookie fdEmptyPlain secretOld).2 = [none] ∧
    formErrors (editPost envBase reqNoCookie fdEmptyPlain secretOld).2 = [] :=
  empty_plaintext_update_skips_guard envBase reqNoCookie fdEmptyPlain secretOld
    5 ⟨[2]⟩ rfl rfl rfl rfl rfl

/-- **C9 counterexample.** The claim says the "Invalid private key!" error
path is reached only when `get_master_key` returns `None` without raising. At
this explicit concrete input the `SessionKey` row is missing, so
`get_master_key` is never called (no `callGetMasterKey` event occurs), yet
the "Invalid private key!" message is still emitted after the
"No session key found" one. -/
theorem invalid_private_key_without_gmk_counterexample :
    errorMsgs (bulkPost envNoSession reqCookie []).2 =
      [noSessionKeyMsg, invalidPrivateKeyMsg] ∧
    gmkCalls (bulkPost envNoSession reqCookie []).2 = [] := by
  exact ⟨by decide, by decide⟩

/-- **C9 (amended).** In `SecretBulkImportView.post` only the
`SessionKey.DoesNotExist` exception is handled, and any exception raised by
`get_master_key` propagates uncaught out of the view; the "Invalid private
key!" error is emitted whenever the master key is still `None` after the try
block — both when `get_master_key` returns `None` without raising and when
the `SessionKey` lookup raised `DoesNotExist` (in which case it follows the
"No session key found" message and `get_master_key` is never called). -/
theorem bulk_master_key_error_paths
    (env : Env) (request : Request) (rows : List FormData) (s : String)
    (hcookie : request.cookies "session_key" = some s) (hne : s ≠ "") :
    (∀ sk e, env.sessionKey = some sk →
      env.getMasterKey sk (some (env.b64decode s)) = Except.error e →
      bulkPost env request rows =
        (BulkOutcome.raised e, [Event.callGetMasterKey (some (env.b64decode s))])) ∧
    (∀ sk, env.sessionKey = some sk →
      env.getMasterKey sk (some (env.b64decode s)) = Except.ok none →
      errorMsgs (bulkPost env request rows).2 = [invalidPrivateKeyMsg]) ∧
    (env.sessionKey = none →
      errorMsgs (bulkPost env request rows).2 = [noSessionKeyMsg, invalidPrivateKeyMsg] ∧
      gmkCalls (bulkPost env request rows).2 = []) := by
  refine ⟨fun sk e hsk hg => ?_, fun sk hsk hg => ?_, fun hsk => ?_⟩
  · simp [bulkPost, hcookie, hne, hsk, hg]
  · simp [bulkPost, hcookie, hne, hsk, hg, errorMsgs]
  · simp [bulkPost, hcookie, hne, hsk, errorMsgs, gmkCalls]

/-- Witness for the amended C9, applying it at three concrete inputs: a
raising `get_master_key` (exception escapes the view), a `None`-returning
`get_master_key`, and a missing SessionKey row. -/
theorem bulk_master_key_error_paths_witness :
    (bulkPost envGmkRaise reqCookie []).1 = BulkOutcome.raised "InvalidKey" ∧
    errorMsgs (bulkPost envGmkNone reqCookie []).2 = [invalidPrivateKeyMsg] ∧
    errorMsgs (bulkPost envNoSession reqCookie []).2 =
      [noSessionKeyMsg, invalidPrivateKeyMsg] := by
  refine ⟨?_, ?_, ?_⟩
  · have h := (bulk_master_key_error_paths envGmkRaise reqCookie [] "c2Vzc2lvbg=="
      rfl (by decide)).1 ⟨[2]⟩ "InvalidKey" rfl rfl
    rw [h]
  · exact (bulk_master_key_error_paths envGmkNone reqCookie [] "c2Vzc2lvbg=="
      rfl (by decide)).2.1 ⟨[2]⟩ rfl rfl
  · exact ((bulk_master_key_error_paths envNoSession reqCookie [] "c2Vzc2lvbg=="
      rfl (by decide)).2.2 rfl).1

/-- **C10.** Every successful save in `SecretEditView.post`, including the
creation of a brand-new secret, reports "Modified secret" rather than
"Created secret": `form.instance` aliases `secret`, whose `pk` is already
populated by `secret.save()` when the message text is chosen. -/
theorem create_success_reports_modified
    (env : Env) (request : Request) (fd : FormData) (secret0 : SecretState)
    (s : String) (sk : SessionKeyRec) (mk : Bytes)
    (hvalid : fd.valid = true) (hnew : secret0.pk = none)
    (hcookie : request.cookies "session_key" = some s)
    (hsk : env.sessionKey = some sk)
    (hgmk : env.getMasterKey sk (some (env.b64decode s)) = Except.ok (some mk)) :
    successMsgs (editPost env request fd secret0).2 =
      ["Modified secret <a href=\"" ++ env.urlOf (some env.nextPk) ++ "\">" ++
        env.escapeHtml fd.name ++ "</a>"] ∧
    (editPost env request fd secret0).1 = EditOutcome.redirectUrl env.returnUrl := by
  by_cases hp : fd.plaintext = "" <;>
    simp [editPost, get_session_key, hcookie, hvalid, hsk, hgmk, hp, hnew,
      successMsgs, modelSave, Secret.encrypt, formSaveNoCommit]

/-- Witness for C10 at a concrete input: creating a brand-new secret still
announces "Modified secret". -/
theorem create_success_reports_modified_witness :
    successMsgs (editPost envBase reqCookie fdCreate secretNew).2 =
      ["Modified secret <a href=\"" ++ envBase.urlOf (some envBase.nextPk) ++ "\">" ++
        envBase.escapeHtml "db-password" ++ "</a>"] ∧
    (editPost envBase reqCookie fdCreate secretNew).1 =
      EditOutcome.redirectUrl envBase.returnUrl :=
  create_success_reports_modified envBase reqCookie fdCreate secretNew
    "c2Vzc2lvbg==" ⟨[2]⟩ [3] rfl rfl rfl rfl rfl

/-- The behaviour of a `get_master_key` call with the sensitive values
stripped: which constructor it produced, not which bytes. -/
inductive GmkShape where
  | oksome
  | oknone
  | err
  deriving DecidableEq

/-- Strip a `get_master_key` result to its shape. -/
def gmkShape : GmkResult → GmkShape
  | Except.ok (some _) => GmkShape.oksome
  | Except.ok none => GmkShape.oknone
  | Except.error _ => GmkShape.err

/-- The shape of the `get_master_key` call `editPost` would make (a dummy
when the user has no SessionKey row and no call happens). -/
def editGmkShape (env : Env) (request : Request) : GmkShape :=
  match env.sessionKey with
  | some sk => gmkShape (env.getMasterKey sk (get_session_key env request))
  | none => GmkShape.err

/-- The shape of the `get_master_key` call `bulkPost` would make (a dummy
when no call happens). -/
def bulkGmkShape (env : Env) (request : Request) : GmkShape :=
  match env.sessionKey, request.cookies "session_key" with
  | some sk, some s => gmkShape (env.getMasterKey sk (some (env.b64decode s)))
  | _, _ => GmkShape.err

/-- Python truthiness of the session-key cookie (`if session_key:`). -/
def sessionCookieTruthy (request : Request) : Bool :=
  match request.cookies "session_key" with
  | some s => if s = "" then false else true
  | none => false

/-- What `editPost` writes to the logs and the message channels, as a
function of the insensitive observables only: cookie presence, form data,
the instance, SessionKey-row presence, the shape of the `get_master_key`
outcome, and the insensitive helpers. -/
def editLogsView (hasCookie : Bool) (fd : FormData) (secret0 : SecretState)
    (hasSk : Bool) (shape : GmkShape) (nextPk : Nat)
    (urlOf : Option Nat → String) (esc : String → String) : List (String × String) :=
  if fd.valid then
    if (fd.plaintext ≠ "" ∨ secret0.pk = none) ∧ hasCookie = false then
      [("log.debug", "Form validation was successful"),
       ("log.debug", "Unable to proceed: No session key was provided with the request"),
       ("form.error", noKeyProvidedMsg)]
    else if hasSk = false then
      [("log.debug", "Form validation was successful"),
       ("log.debug", "Unable to proceed: User has no session key assigned"),
       ("form.error", noSessionKeyMsg)]
    else
      match shape with
      | GmkShape.err => [("log.debug", "Form validation was successful")]
      | GmkShape.oknone => [("log.debug", "Form validation was successful")]
      | GmkShape.oksome =>
          let pk : Option Nat := some (secret0.pk.getD nextPk)
          let msg := (if pk = none then "Created" else "Modified") ++ " secret"
          [("log.debug", "Form validation was successful"),
           ("log.debug", "Successfully resolved master key for encryption"),
           ("log.info", msg ++ " " ++ fd.name ++ " (PK: " ++ toString (pk.getD 0) ++ ")"),
           ("messages.success", msg ++ " <a href=\"" ++ urlOf pk ++ "\">" ++
             esc fd.name ++ "</a>")]
  else [("log.debug", "Form validation failed")]

/-- What `bulkPost` writes to the message channels, as a function of the
insensitive observables only. -/
def bulkLogsView (cookieTruthy : Bool) (hasSk : Bool) (shape : GmkShape) :
    List (String × String) :=
  if cookieTruthy = false then [("messages.error", noKeyProvidedMsg)]
  else if hasSk = false then
    [("messages.error", noSessionKeyMsg), ("messages.error", invalidPrivateKeyMsg)]
  else
    match shape with
    | GmkShape.err => []
    | GmkShape.oknone => [("messages.error", invalidPrivateKeyMsg)]
    | GmkShape.oksome => []

/-- `_save_obj` emits no log or message events. -/
lemma logsAndMessages_superPost (env : Env) (masterKey : Bytes) (rows : List FormData) :
    logsAndMessages (bulkSuperPost env masterKey rows) = [] := by
  induction rows with
  | nil => rfl
  | cons fd rest ih =>
      simp only [bulkSuperPost, List.map_cons, List.flatten_cons] at ih ⊢
      simp only [logsAndMessages, List.filterMap_append] at ih ⊢
      rw [ih]
      rfl

/-- The log/message output of `editPost` is a function of the insensitive
observables alone. -/
lemma editPost_logs_characterization (env : Env) (request : Request) (fd : FormData)
    (secret0 : SecretState) :
    logsAndMessages (editPost env request fd secret0).2 =
      editLogsView (request.cookies "session_key").isSome fd secret0
        env.sessionKey.isSome (editGmkShape env request) env.nextPk env.urlOf
        env.escapeHtml := by
  cases hv : fd.valid
  · simp [editPost, editLogsView, hv, logsAndMessages]
  · by_cases hscope : fd.plaintext ≠ "" ∨ secret0.pk = none
    · cases hc : request.cookies "session_key" with
      | none =>
          simp [editPost, editLogsView, get_session_key, hv, hc, hscope, logsAndMessages]
      | some v =>
          have hkey : get_session_key env request = some (env.b64decode v) := by
            simp [get_session_key, hc]
          cases hsk : env.sessionKey with
          | none =>
              simp [editPost, editLogsView, hv, hc, hkey, hscope, hsk, logsAndMessages]
          | some sk =>
              rcases hg : env.getMasterKey sk (some (env.b64decode v)) with e | mk
              · simp [editPost, editLogsView, editGmkShape, gmkShape, hv, hc, hkey,
                  hscope, hsk, hg, logsAndMessages]
              · rcases mk with _ | masterKey
                · simp [editPost, editLogsView, editGmkShape, gmkShape, hv, hc, hkey,
                    hscope, hsk, hg, logsAndMessages]
                · by_cases hp : fd.plaintext = "" <;>
                    simp [editPost, editLogsView, editGmkShape, gmkShape, hv, hc, hkey,
                      hscope, hsk, hg, hp, logsAndMessages, modelSave, Secret.encrypt,
                      formSaveNoCommit]
    · -- neither a create nor a plaintext update: the guard is never taken
      push_neg at hscope
      obtain ⟨hp0, hpk0⟩ := hscope
      cases hsk : env.sessionKey with
      | none =>
          simp [editPost, editLogsView, hv, hp0, hpk0, hsk, logsAndMessages]
      | some sk =>
          rcases hg : env.getMasterKey sk (get_session_key env request) with e | mk
          · simp [editPost, editLogsView, editGmkShape, gmkShape, hv, hp0, hpk0, hsk,
              hg, logsAndMessages]
          · rcases mk with _ | masterKey
            · simp [editPost, editLogsView, editGmkShape, gmkShape, hv, hp0, hpk0,
                hsk, hg, logsAndMessages]
            · simp [editPost, editLogsView, editGmkShape, gmkShape, hv, hp0, hpk0,
                hsk, hg, logsAndMessages, modelSave, Secret.encrypt, formSaveNoCommit]

/-- The log/message output of `bulkPost` is a function of the insensitive
observables alone. -/
lemma bulkPost_logs_characterization (env : Env) (request : Request)
    (rows : List FormData) :
    logsAndMessages (bulkPost env request rows).2 =
      bulkLogsView (sessionCookieTruthy request) env.sessionKey.isSome
        (bulkGmkShape env request) := by
  cases hc : request.cookies "session_key" with
  | none => simp [bulkPost, bulkLogsView, sessionCookieTruthy, hc, logsAndMessages]
  | some v =>
      by_cases hve : v = ""
      · simp [bulkPost, bulkLogsView, sessionCookieTruthy, hc, hve, logsAndMessages]
      · cases hsk : env.sessionKey with
        | none =>
            simp [bulkPost, bulkLogsView, sessionCookieTruthy, hc, hve, hsk,
              logsAndMessages]
        | some sk =>
            rcases hg : env.getMasterKey sk (some (env.b64decode v)) with e | mk
            · simp [bulkPost, bulkLogsView, bulkGmkShape, gmkShape, sessionCookieTruthy,
                hc, hve, hsk, hg, logsAndMessages]
            · rcases mk with _ | masterKey
              · simp [bulkPost, bulkLogsView, bulkGmkShape, gmkShape,
                  sessionCookieTruthy, hc, hve, hsk, hg, logsAndMessages]
              · simp [bulkPost, bulkLogsView, bulkGmkShape, gmkShape,
                  sessionCookieTruthy, hc, hve, hsk, hg, logsAndMessages]
                intro a ha
                have hsup := logsAndMessages_superPost env masterKey rows
                rw [logsAndMessages, List.filterMap_eq_nil_iff] at hsup
                exact hsup a ha

/-- **C7.** No log call and no user-facing message of the secret views
includes the session secret or the derived master key: two executions that
differ only in those sensitive values (the cookie bytes, the decoded session
secret, the master key, the resulting ciphertexts) while agreeing on all
insensitive observables produce identical log output and identical response
messages. -/
theorem logs_and_messages_independent_of_secret_values
    (env1 env2 : Env) (req1 req2 : Request) (fd : FormData) (secret0 : SecretState)
    (rows : List FormData)
    (hpresence : (req1.cookies "session_key").isSome = (req2.cookies "session_key").isSome)
    (hempty : ∀ v1 v2, req1.cookies "session_key" = some v1 →
      req2.cookies "session_key" = some v2 → (v1 = "" ↔ v2 = ""))
    (hskp : env1.sessionKey.isSome = env2.sessionKey.isSome)
    (hshape : ∀ sk1 sk2 k1 k2, env1.sessionKey = some sk1 → env2.sessionKey = some sk2 →
      gmkShape (env1.getMasterKey sk1 k1) = gmkShape (env2.getMasterKey sk2 k2))
    (hpk : env1.nextPk = env2.nextPk) (hurl : env1.urlOf = env2.urlOf)
    (hesc : env1.escapeHtml = env2.escapeHtml) :
    logsAndMessages (editPost env1 req1 fd secret0).2 =
      logsAndMessages (editPost env2 req2 fd secret0).2 ∧
    logsAndMessages (bulkPost env1 req1 rows).2 =
      logsAndMessages (bulkPost env2 req2 rows).2 := by
  have hshapeEdit : editGmkShape env1 req1 = editGmkShape env2 req2 := by
    unfold editGmkShape
    cases hsk1 : env1.sessionKey with
    | none =>
        cases hsk2 : env2.sessionKey with
        | none => rfl
        | some sk2 => rw [hsk1, hsk2] at hskp; simp at hskp
    | some sk1 =>
        cases hsk2 : env2.sessionKey with
        | none => rw [hsk1, hsk2] at hskp; simp at hskp
        | some sk2 => exact hshape sk1 sk2 _ _ hsk1 hsk2
  have hshapeBulk : bulkGmkShape env1 req1 = bulkGmkShape env2 req2 := by
    unfold bulkGmkShape
    cases hsk1 : env1.sessionKey with
    | none =>
        cases hsk2 : env2.sessionKey with
        | none => cases req1.cookies "session_key" <;> cases req2.cookies "session_key" <;> rfl
        | some sk2 => rw [hsk1, hsk2] at hskp; simp at hskp
    | some sk1 =>
        cases hsk2 : env2.sessionKey with
        | none => rw [hsk1, hsk2] at hskp; simp at hskp
        | some sk2 =>
            cases hc1 : req1.cookies "session_key" with
            | none =>
                cases hc2 : req2.cookies "session_key" with
                | none => rfl
                | some v2 => rw [hc1, hc2] at hpresence; simp at hpresence
            | some v1 =>
                cases hc2 : req2.cookies "session_key" with
                | none => rw [hc1, hc2] at hpresence; simp at hpresence
                | some v2 => exact hshape sk1 sk2 _ _ hsk1 hsk2
  have htruthy : sessionCookieTruthy req1 = sessionCookieTruthy req2 := by
    unfold sessionCookieTruthy
    cases hc1 : req1.cookies "session_key" with
    | none =>
        cases hc2 : req2.cookies "session_key" with
        | none => rfl
        | some v2 => rw [hc1, hc2] at hpresence; simp at hpresence
    | some v1 =>
        cases hc2 : req2.cookies "session_key" with
        | none => rw [hc1, hc2] at hpresence; simp at hpresence
        | some v2 =>
            have h := hempty v1 v2 hc1 hc2
            by_cases hv1 : v1 = ""
            · simp [hv1, h.mp hv1]
            · have hv2 : ¬v2 = "" := fun hx => hv1 (h.mpr hx)
              simp [hv1, hv2]
  constructor
  · rw [editPost_logs_characterization, editPost_logs_characterization,
      hpresence, hskp, hshapeEdit, hpk, hurl, hesc]
  · rw [bulkPost_logs_characterization, bulkPost_logs_characterization,
      htruthy, hskp, hshapeBulk]

/-- An environment agreeing with `envBase` on every insensitive observable
but holding different sensitive values: a different decoded session secret,
a different master key, different ciphertexts. -/
def envAltSecrets : Env :=
  { envBase with
    b64decode := fun _ => [99]
    getMasterKey := fun _ _ => Except.ok (some [111])
    encCipher := fun _ _ => [113]
    encNonce := fun _ _ => [114] }

/-- Witness for C7 at a concrete input: changing the session secret, master
key and ciphertext bytes leaves the logs and messages of both views
unchanged. -/
theorem logs_and_messages_independent_of_secret_values_witness :
    logsAndMessages (editPost envBase reqCookie fdCreate secretNew).2 =
      logsAndMessages (editPost envAltSecrets reqCookie fdCreate secretNew).2 ∧
    logsAndMessages (bulkPost envBase reqCookie [fdCreate]).2 =
      logsAndMessages (bulkPost envAltSecrets reqCookie [fdCreate]).2 := by
  refine logs_and_messages_independent_of_secret_values envBase envAltSecrets
    reqCookie reqCookie fdCreate secretNew [fdCreate] rfl ?_ rfl ?_ rfl rfl rfl
  · intro v1 v2 h1 h2
    simp [reqCookie] at h1 h2
    rw [← h1, ← h2]
  · intro sk1 sk2 k1 k2 h1 h2
    rfl
